import Mathlib

/-!
Verification of the bili-radar polling plugin: a shallow embedding of the
WBI signing helper (`src/bili/wbi_signer.py`), the response parser
(`src/bili/parser.py`), the API client retry logic (`src/bili/client.py`)
and the polling task (`src/tasks/polling_task.py`), with theorems settling
the frozen behavioural claims.

Conventions of the embedding:
* Python `None` becomes `Option.none`; a nullable database column is an
  `Option` field.
* Python truthiness tests (`if not x:`) on strings and ints become the
  explicit predicates `pyTruthyS` / `pyTruthyI`.
* Awaited external I/O (HTTP requests, the notifier, the resolver, the DAO) is
  replaced by explicit outcome parameters; state mutation is explicit state
  passing; side-effecting calls are recorded in an `Effect` trace.
* Machine integers are `Int`/`Nat`; the 32-bit arithmetic of the digest is
  Nat arithmetic taken `% 2 ^ 32`.
-/

/-- Python truthiness of a nullable string: `None` and `""` are falsy. -/
def pyTruthyS : Option String → Bool
  | none => false
  | some s => !(s = "")

/-- Python truthiness of a nullable integer: `None` and `0` are falsy. -/
def pyTruthyI : Option Int → Bool
  | none => false
  | some n => !(n = 0)

/-- Python `x or d` for a nullable string `x`: the string when truthy, else `d`. -/
def pyOrS (x : Option String) (d : String) : String :=
  if pyTruthyS x then x.getD "" else d

/-- Python dict item assignment `l[k] = v`: replace the value in place when the
key is present, append the pair otherwise (insertion order preserved). -/
def dict_set {κ α : Type} [DecidableEq κ] (l : List (κ × α)) (k : κ) (v : α) :
    List (κ × α) :=
  if l.any (fun kv => kv.1 = k) then
    l.map (fun kv => if kv.1 = k then (k, v) else kv)
  else
    l ++ [(k, v)]

/-- Python dict read `l.get(k)`: the value at the first (hence only) matching key. -/
def dict_get {κ α : Type} [DecidableEq κ] (k : κ) : List (κ × α) → Option α
  | [] => none
  | kv :: t => if kv.1 = k then some kv.2 else dict_get k t

/-! ## WBI signer (`src/bili/wbi_signer.py`) -/

/-- `WbiSigner.MIXIN_KEY_ENC_TAB`, the fixed 64-entry reordering table. -/
def MIXIN_KEY_ENC_TAB : List Nat :=
  [46, 47, 18, 2, 53, 8, 23, 32, 15, 50, 10, 31, 58, 3, 45, 35, 27, 43, 5, 49,
   33, 9, 42, 19, 29, 28, 14, 39, 12, 38, 41, 13, 37, 48, 7, 16, 24, 55, 40,
   61, 26, 17, 0, 1, 60, 51, 30, 4, 22, 25, 54, 21, 56, 59, 6, 63, 57, 62, 11,
   36, 20, 34, 44, 52]

/-- Key-derivation step of `WbiSigner.get_mixin_key` on an already-valid cached
pair: concatenate the two keys, pick character `i` of the concatenation for
every entry `i` of the table, keep the first 32 characters. -/
def get_mixin_key (img_key sub_key : String) : String :=
  let orig_key := img_key ++ sub_key
  String.mk ((MIXIN_KEY_ENC_TAB.map (fun i => orig_key.data.getD i ' ')).take 32)

/-- Cached key state of a `WbiSigner` instance. -/
structure WbiState where
  img_key : Option String
  sub_key : Option String
  keys_fetched_at : Int
  deriving DecidableEq, Repr

/-- Outcome of the nav-endpoint request inside `WbiSigner._fetch_wbi_keys`:
an exception before the body is examined (transport error, non-2xx status via
`raise_for_status`, malformed JSON), or a body whose two `wbi_img` URLs may
each be absent. -/
inductive NavResp
  | raise
  | ok (img_url : Option String) (sub_url : Option String)
  deriving DecidableEq

/-- `img_url.split("/")[-1].split(".")[0]`: last path segment minus extension. -/
def extract_url_key (url : String) : String :=
  (((url.splitOn "/").getLastD "").splitOn ".").headD ""

/-- `WbiSigner._fetch_wbi_keys` as a state transition: the boolean reports
success. Every failure re-raises before the three assignment statements run,
so the cache is only written on the all-or-nothing success path. -/
def fetch_wbi_keys (st : WbiState) (now : Int) (resp : NavResp) :
    WbiState × Bool :=
  match resp with
  | .raise => (st, false)
  | .ok img_url sub_url =>
      if !pyTruthyS img_url || !pyTruthyS sub_url then (st, false)
      else ({ img_key := some (extract_url_key (img_url.getD ""))
              sub_key := some (extract_url_key (sub_url.getD ""))
              keys_fetched_at := now }, true)

/-! ### The MD5 digest used by `sign_params`.

Modelled from the spec: `hashlib.md5` is standard-library code outside this
repository; the spec fixes it as "the specific 128-bit digest the remote
expects" producing "a 32-character lowercase hex digest", i.e. RFC 1321 MD5.
32-bit words are `Nat` values kept below `2 ^ 32`. -/

/-- Per-round additive constants of MD5. -/
def md5_k_tab : List Nat :=
  [0xd76aa478, 0xe8c7b756, 0x242070db, 0xc1bdceee,
   0xf57c0faf, 0x4787c62a, 0xa8304613, 0xfd469501,
   0x698098d8, 0x8b44f7af, 0xffff5bb1, 0x895cd7be,
   0x6b901122, 0xfd987193, 0xa679438e, 0x49b40821,
   0xf61e2562, 0xc040b340, 0x265e5a51, 0xe9b6c7aa,
   0xd62f105d, 0x02441453, 0xd8a1e681, 0xe7d3fbc8,
   0x21e1cde6, 0xc33707d6, 0xf4d50d87, 0x455a14ed,
   0xa9e3e905, 0xfcefa3f8, 0x676f02d9, 0x8d2a4c8a,
   0xfffa3942, 0x8771f681, 0x6d9d6122, 0xfde5380c,
   0xa4beea44, 0x4bdecfa9, 0xf6bb4b60, 0xbebfbc70,
   0x289b7ec6, 0xeaa127fa, 0xd4ef3085, 0x04881d05,
   0xd9d4d039, 0xe6db99e5, 0x1fa27cf8, 0xc4ac5665,
   0xf4292244, 0x432aff97, 0xab9423a7, 0xfc93a039,
   0x655b59c3, 0x8f0ccc92, 0xffeff47d, 0x85845dd1,
   0x6fa87e4f, 0xfe2ce6e0, 0xa3014314, 0x4e0811a1,
   0xf7537e82, 0xbd3af235, 0x2ad7d2bb, 0xeb86d391]

/-- Per-round left-rotation amounts of MD5. -/
def md5_s_tab : List Nat :=
  [7, 12, 17, 22, 7, 12, 17, 22, 7, 12, 17, 22, 7, 12, 17, 22,
   5, 9, 14, 20, 5, 9, 14, 20, 5, 9, 14, 20, 5, 9, 14, 20,
   4, 11, 16, 23, 4, 11, 16, 23, 4, 11, 16, 23, 4, 11, 16, 23,
   6, 10, 15, 21, 6, 10, 15, 21, 6, 10, 15, 21, 6, 10, 15, 21]

/-- Bitwise complement within 32 bits. -/
def lnot32 (w : Nat) : Nat := 4294967295 ^^^ w

/-- 32-bit left rotation. -/
def rotl32 (w s : Nat) : Nat :=
  ((w <<< s) % 4294967296) ||| (w >>> (32 - s))

/-- Round function of MD5 (F, G, H, I by round quarter). -/
def md5_f (i b c d : Nat) : Nat :=
  if i < 16 then (b &&& c) ||| (lnot32 b &&& d)
  else if i < 32 then (d &&& b) ||| (lnot32 d &&& c)
  else if i < 48 then b ^^^ c ^^^ d
  else c ^^^ (b ||| lnot32 d)

/-- Message-word index of round `i`. -/
def md5_g (i : Nat) : Nat :=
  if i < 16 then i
  else if i < 32 then (5 * i + 1) % 16
  else if i < 48 then (3 * i + 5) % 16
  else (7 * i) % 16

/-- Word `j` of a 64-byte block, read little-endian. -/
def md5_word (block : List Nat) (j : Nat) : Nat :=
  block.getD (4 * j) 0 + 256 * block.getD (4 * j + 1) 0
    + 65536 * block.getD (4 * j + 2) 0 + 16777216 * block.getD (4 * j + 3) 0

/-- The four 32-bit chaining words of MD5. -/
structure MD5State where
  a : Nat
  b : Nat
  c : Nat
  d : Nat
  deriving DecidableEq, Repr

/-- One of the 64 rounds on one block. -/
def md5_step (block : List Nat) (st : MD5State) (i : Nat) : MD5State :=
  let f := md5_f i st.b st.c st.d
  let tmp := (st.a + f + md5_k_tab.getD i 0 + md5_word block (md5_g i))
    % 4294967296
  { a := st.d
    b := (st.b + rotl32 tmp (md5_s_tab.getD i 0)) % 4294967296
    c := st.b
    d := st.c }

/-- Process one 64-byte block: 64 rounds, then add into the chaining state. -/
def md5_process_block (st : MD5State) (block : List Nat) : MD5State :=
  let r := (List.range 64).foldl (md5_step block) st
  { a := (st.a + r.a) % 4294967296
    b := (st.b + r.b) % 4294967296
    c := (st.c + r.c) % 4294967296
    d := (st.d + r.d) % 4294967296 }

/-- Split into 64-byte chunks; the fuel bounds the recursion and is in
practice the list length. -/
def chunks64 : Nat → List Nat → List (List Nat)
  | 0, _ => []
  | _ + 1, [] => []
  | fuel + 1, l => l.take 64 :: chunks64 fuel (l.drop 64)

/-- A `Nat` as 8 little-endian bytes (the 64-bit message bit length). -/
def len_le8 (n : Nat) : List Nat :=
  [n % 256, n / 256 % 256, n / 65536 % 256, n / 16777216 % 256,
   n / 4294967296 % 256, n / 1099511627776 % 256,
   n / 281474976710656 % 256, n / 72057594037927936 % 256]

/-- A 32-bit word as 4 little-endian bytes. -/
def word_le_bytes (w : Nat) : List Nat :=
  [w % 256, w / 256 % 256, w / 65536 % 256, w / 16777216 % 256]

/-- MD5 of a byte string: pad with `0x80`, zeros to 56 mod 64, and the 64-bit
little-endian bit length; run the compression; emit 16 digest bytes. -/
def md5_bytes (msg : List Nat) : List Nat :=
  let pad_zeros := (119 - msg.length % 64) % 64
  let padded := msg ++ 128 :: (List.replicate pad_zeros 0
    ++ len_le8 (8 * msg.length))
  let blocks := chunks64 padded.length padded
  let st := blocks.foldl md5_process_block
    ⟨0x67452301, 0xefcdab89, 0x98badcfe, 0x10325476⟩
  word_le_bytes st.a ++ word_le_bytes st.b ++ word_le_bytes st.c
    ++ word_le_bytes st.d

/-- The sixteen lowercase hex digits. -/
def hex_lower_chars : List Char := "0123456789abcdef".data

/-- The sixteen uppercase hex digits. -/
def hex_upper_chars : List Char := "0123456789ABCDEF".data

/-- Lowercase hex digit of a value below 16. -/
def hex_digit_lower (n : Nat) : Char := hex_lower_chars.getD n '0'

/-- Uppercase hex digit of a value below 16. -/
def hex_digit_upper (n : Nat) : Char := hex_upper_chars.getD n '0'

/-- Two lowercase hex characters of one byte. -/
def byte_hex (b : Nat) : List Char :=
  [hex_digit_lower (b / 16 % 16), hex_digit_lower (b % 16)]

/-- `hashlib.md5(...).hexdigest()`: 32 lowercase hex characters. -/
def md5_hex (msg : List Nat) : String :=
  String.mk ((md5_bytes msg).map byte_hex).flatten

/-- UTF-8 bytes of one character (Python `str.encode()` per code point). -/
def char_utf8 (c : Char) : List Nat :=
  let n := c.toNat
  if n < 128 then [n]
  else if n < 2048 then [192 + n / 64, 128 + n % 64]
  else if n < 65536 then [224 + n / 4096, 128 + n / 64 % 64, 128 + n % 64]
  else [240 + n / 262144, 128 + n / 4096 % 64, 128 + n / 64 % 64, 128 + n % 64]

/-- UTF-8 bytes of a string. -/
def str_bytes (s : String) : List Nat := (s.data.map char_utf8).flatten

/-- Characters `urllib.parse.quote` never escapes (ASCII alphanumerics and
`_.-~`). -/
def quote_safe_char (c : Char) : Bool :=
  c.isAlphanum || c = '_' || c = '.' || c = '-' || c = '~'

/-- Percent-escape of one byte, uppercase hex as in `urllib.parse.quote`. -/
def percent_byte (b : Nat) : List Char :=
  ['%', hex_digit_upper (b / 16 % 16), hex_digit_upper (b % 16)]

/-- `urllib.parse.quote_plus` on one character: space becomes `+`, safe
characters pass through, anything else is percent-escaped bytewise. -/
def quote_plus_char (c : Char) : List Char :=
  if c = ' ' then ['+']
  else if quote_safe_char c then [c]
  else ((char_utf8 c).map percent_byte).flatten

/-- `urllib.parse.quote_plus` with the default empty `safe` set. -/
def quote_plus (s : String) : String :=
  String.mk ((s.data.map quote_plus_char).flatten)

/-- A query-parameter value: the source dict holds ints and strings. -/
inductive PVal
  | i (n : Int)
  | s (v : String)
  deriving DecidableEq, Repr

/-- Python `str()` of a parameter value. -/
def pval_str : PVal → String
  | .i n => toString n
  | .s v => v

/-- `urllib.parse.urlencode`: `quote_plus` each key and stringified value,
join as `k=v` pairs with `&`. -/
def urlencode (l : List (String × PVal)) : String :=
  String.intercalate "&" (l.map (fun kv =>
    quote_plus kv.1 ++ "=" ++ quote_plus (pval_str kv.2)))

/-- Insert into a list ordered by key (keys are distinct dict keys, so ties
never matter). -/
def insort_by_key (kv : String × PVal) :
    List (String × PVal) → List (String × PVal)
  | [] => [kv]
  | hd :: tl =>
      if kv.1 ≤ hd.1 then kv :: hd :: tl else hd :: insort_by_key kv tl

/-- Python `sorted(params.items())` for a dict with distinct keys: sort the
pairs by key, lexicographically on code points. -/
def sorted_by_key (l : List (String × PVal)) : List (String × PVal) :=
  l.foldr insort_by_key []

/-- `WbiSigner.sign_params` at a fixed clock value `now` and a valid cached
mixin key: set `wts`, serialize all params sorted by key, digest
query-plus-mixin-key, and set `w_rid`. -/
def sign_params (now : Int) (mixin_key : String)
    (params : List (String × PVal)) : List (String × PVal) :=
  let params1 := dict_set params "wts" (PVal.i now)
  let query := urlencode (sorted_by_key params1)
  let w_rid := md5_hex (str_bytes (query ++ mixin_key))
  dict_set params1 "w_rid" (PVal.s w_rid)

/-! ## Parser (`src/bili/parser.py`) -/

/-- One element of the `vlist` array of the space-search response; each consumed
field may be absent (`.get` yields `None`). -/
structure RawVideo where
  bvid : Option String
  title : Option String
  author : Option String
  created : Option Int
  deriving DecidableEq, Repr

/-- The `data` field of a successful response, reduced to the consumed shape:
`response_data.get("list", {}).get("vlist", [])`. -/
structure SpaceData where
  vlist : List RawVideo
  deriving DecidableEq, Repr

/-- `VideoInfo` dataclass of `src/bili/parser.py`. -/
structure VideoInfo where
  bvid : String
  title : String
  author : String
  created_ts : Int
  deriving DecidableEq, Repr

/-- `BiliParser.parse_latest_video`: reject falsy `response_data` and empty
`vlist`; take the first element; require truthy `bvid`, `title`, `created`
(`not all([bvid, title, created_ts])`); default a falsy author
(`author or "未知UP主"`). -/
def parse_latest_video (response_data : Option SpaceData) : Option VideoInfo :=
  match response_data with
  | none => none
  | some d =>
    match d.vlist with
    | [] => none
    | latest :: _ =>
      if !pyTruthyS latest.bvid || !pyTruthyS latest.title
          || !pyTruthyI latest.created then
        none
      else
        some { bvid := latest.bvid.getD ""
               title := latest.title.getD ""
               author := pyOrS latest.author "未知UP主"
               created_ts := latest.created.getD 0 }

/-! ## Subscription row (`src/models.py`) and the change decision
(`src/tasks/polling_task.py`) -/

/-- `BiliSubscription` row, restricted to the fields the polling task reads. -/
structure BiliSubscription where
  id : Int
  stream_id : String
  platform : String
  group_id : Option String
  user_id : Option String
  mid : Int
  up_name : Option String
  enabled : Bool
  last_bvid : Option String
  last_title : Option String
  last_created_ts : Option Int
  deriving DecidableEq, Repr

/-- `BiliPollingTask._should_push`: falsy baseline (`not last_bvid or not
last_created_ts`) yields `false`; otherwise the double condition
`bvid != last_bvid and created_ts > last_created_ts`. -/
def should_push (latest_video : VideoInfo) (subscription : BiliSubscription) :
    Bool :=
  if !pyTruthyS subscription.last_bvid
      || !pyTruthyI subscription.last_created_ts then
    false
  else
    decide (some latest_video.bvid ≠ subscription.last_bvid)
      && decide (latest_video.created_ts > subscription.last_created_ts.getD 0)

/-! ## API client (`src/bili/client.py`) -/

/-- Python `str.lower()` restricted to its ASCII action (the retry check
only looks for the ASCII substring "sign"). -/
def str_lower (s : String) : String :=
  String.mk (s.data.map Char.toLower)

/-- `needle` is a prefix of `hay` (on character lists). -/
def chars_start_with : List Char → List Char → Bool
  | [], _ => true
  | _ :: _, [] => false
  | n :: ns, h :: hs => n = h && chars_start_with ns hs

/-- `needle` occurs contiguously in `hay` (Python `needle in hay`). -/
def chars_contain (needle : List Char) : List Char → Bool
  | [] => needle.isEmpty
  | h :: t => chars_start_with needle (h :: t) || chars_contain needle t

/-- Python `needle in hay` on strings. -/
def str_contains_sub (hay needle : String) : Bool :=
  chars_contain needle.data hay.data

/-- Outcome of one GET of the arc-search endpoint inside
`BiliClient.fetch_latest_video`: a timeout, a non-2xx status raised by
`raise_for_status`, any other exception, or a decoded JSON body with its
`code`, `message` and optional `data`. -/
inductive ApiResp
  | timeout
  | http_status_error
  | raise
  | ok (code : Int) (message : String) (data : Option SpaceData)
  deriving DecidableEq

/-- `BiliClient.fetch_latest_video` specialized to `retry_on_sign_error=False`
(the shape of the recursive retry call; a non-retrying call never refreshes).
`resp k` is the body of the `k`-th request issued by the top-level call; the
result carries the parsed video (or `none`), the number of `refresh_keys`
calls, and the number of arc-search requests. -/
def fetch_latest_video_noretry (resp : Nat → ApiResp) (k : Nat) :
    Option VideoInfo × Nat × Nat :=
  match resp k with
  | .timeout => (none, 0, 1)
  | .http_status_error => (none, 0, 1)
  | .raise => (none, 0, 1)
  | .ok code _ data =>
      if code = -412 then (none, 0, 1)
      else if !(code = 0) then (none, 0, 1)
      else (parse_latest_video data, 0, 1)

/-- `BiliClient.fetch_latest_video` with its `retry_on_sign_error` flag; the
recursive `retry_on_sign_error=False` call is `fetch_latest_video_noretry`
(the flag conjunction makes the two agree when the flag is false, see
`fetch_latest_video_false_eq_noretry`). -/
def fetch_latest_video (retry_on_sign_error : Bool) (resp : Nat → ApiResp)
    (k : Nat) : Option VideoInfo × Nat × Nat :=
  match resp k with
  | .timeout => (none, 0, 1)
  | .http_status_error => (none, 0, 1)
  | .raise => (none, 0, 1)
  | .ok code message data =>
      if code = -412 then (none, 0, 1)
      else if !(code = 0) then
        if retry_on_sign_error && str_contains_sub (str_lower message) "sign" then
          let r := fetch_latest_video_noretry resp (k + 1)
          (r.1, r.2.1 + 1, r.2.2 + 1)
        else (none, 0, 1)
      else (parse_latest_video data, 0, 1)

/-- Whether a response yields no video for a non-retrying call: every failure
shape, or a success body that parses to nothing. -/
def resp_fails (r : ApiResp) : Bool :=
  match r with
  | .timeout => true
  | .http_status_error => true
  | .raise => true
  | .ok code _ data =>
      if code = 0 then (parse_latest_video data).isNone else true

/-! ## Polling task (`src/tasks/polling_task.py`) -/

/-- Outcome of `bili_client.fetch_latest_video` for one mid inside the batch:
an exception (collected by `gather(..., return_exceptions=True)`), or a
normal return of an optional video. -/
inductive FetchOutcome
  | raise
  | ok (video : Option VideoInfo)
  deriving DecidableEq

/-- The video a batch outcome contributes, if any. -/
def fetch_value : FetchOutcome → Option VideoInfo
  | .raise => none
  | .ok v => v

/-- One iteration of the result-collection loop of
`_fetch_latest_videos_batch`: skip an exception, skip an empty result, keep a
video keyed by mid. -/
def fetch_batch_step (f : Int → FetchOutcome)
    (acc : List (Int × VideoInfo)) (mid : Int) : List (Int × VideoInfo) :=
  match f mid with
  | .raise => acc
  | .ok none => acc
  | .ok (some video) => dict_set acc mid video

/-- `BiliPollingTask._fetch_latest_videos_batch`: iterate the gathered
results in task order, skip exceptions and empty results, keep videos keyed
by mid. -/
def fetch_latest_videos_batch (f : Int → FetchOutcome) (mid_list : List Int) :
    List (Int × VideoInfo) :=
  mid_list.foldl (fetch_batch_step f) []

/-- One observable call performed while processing a cycle. -/
inductive Effect
  | fetch (mid : Int)
  | send (stream_id : String)
  | save_stream (sub_id : Int) (stream_id : String)
  | update_last_video (sub_id : Int) (bvid title : String) (created_ts : Int)
      (up_name : String)
  deriving DecidableEq, Repr

/-- Outcome of one `send_api.text_to_stream` call: an exception, or a
boolean success flag. -/
inductive SendOutcome
  | raise
  | ok (success : Bool)
  deriving DecidableEq

/-- The one `dao.update_last_video` call shape used by both the healing and
the push path: the subscription id with the video's id, title, timestamp and
author as the optional display name. -/
def update_effect (video : VideoInfo) (subscription : BiliSubscription) :
    Effect :=
  .update_last_video subscription.id video.bvid video.title video.created_ts
    video.author

/-- `BiliPollingTask._push_and_update`. `notifier n` is the outcome of the
`n`-th delivery attempt of this invocation. The resolvers stand for
`chat_api.get_stream_by_group_id` / `get_stream_by_user_id` — modelled from
the spec (the module is outside this repository): a Resolver capability
returning an optional destination id. Returns the effect trace and whether
the call re-raised. -/
def push_and_update (notifier : Nat → SendOutcome)
    (resolve_group resolve_user : String → Option String)
    (video : VideoInfo) (subscription : BiliSubscription) :
    List Effect × Bool :=
  match notifier 0 with
  | .raise => ([.send subscription.stream_id], true)
  | .ok success =>
      if success then
        ([.send subscription.stream_id, update_effect video subscription],
          false)
      else
        let new_stream : Option String :=
          if pyTruthyS subscription.group_id then
            resolve_group (subscription.group_id.getD "")
          else if pyTruthyS subscription.user_id then
            resolve_user (subscription.user_id.getD "")
          else none
        match new_stream with
        | some ns =>
            if ns ≠ subscription.stream_id then
              match notifier 1 with
              | .raise => ([.send subscription.stream_id, .send ns], true)
              | .ok success2 =>
                  (([.send subscription.stream_id, .send ns]
                    ++ (if success2 then [.save_stream subscription.id ns]
                        else []))
                    ++ [update_effect video subscription], false)
            else
              ([.send subscription.stream_id,
                update_effect video subscription], false)
        | none =>
            ([.send subscription.stream_id,
              update_effect video subscription], false)

/-- Per-subscription step of `BiliPollingTask._poll_once`: look up the
subscription's mid in the batch result (skip when absent), heal a falsy
baseline with a silent `update_last_video`, otherwise push-and-update when
`_should_push` fires. A raise inside `_push_and_update` is caught by the
per-subscription handler, so its partial trace is kept. -/
def process_subscription (mid_to_video : List (Int × VideoInfo))
    (notifier : Int → Nat → SendOutcome)
    (resolve_group resolve_user : String → Option String)
    (subscription : BiliSubscription) : List Effect :=
  match dict_get subscription.mid mid_to_video with
  | none => []
  | some latest_video =>
      if !pyTruthyS subscription.last_bvid
          || !pyTruthyI subscription.last_created_ts then
        [update_effect latest_video subscription]
      else if should_push latest_video subscription then
        (push_and_update (notifier subscription.id) resolve_group resolve_user
          latest_video subscription).1
      else []

/-- `BiliSubscriptionDAO.get_all_enabled_subscriptions`: the rows with
`enabled=True`. -/
def get_all_enabled_subscriptions (rows : List BiliSubscription) :
    List BiliSubscription :=
  rows.filter (fun s => s.enabled)

/-- The mid-deduplication of `_poll_once`: the set
`{sub.mid for sub in subscriptions}` as a duplicate-free list. -/
def unique_mids (subscriptions : List BiliSubscription) : List Int :=
  (subscriptions.map (fun s => s.mid)).dedup

/-- `BiliPollingTask._poll_once` as an effect trace: load enabled rows,
return early when none, fetch the deduplicated mids once each, then process
every subscription against the batch result. -/
def poll_once (rows : List BiliSubscription) (f : Int → FetchOutcome)
    (notifier : Int → Nat → SendOutcome)
    (resolve_group resolve_user : String → Option String) : List Effect :=
  let subscriptions := get_all_enabled_subscriptions rows
  if subscriptions.isEmpty then []
  else
    let mids := unique_mids subscriptions
    let mid_to_video := fetch_latest_videos_batch f mids
    (mids.map Effect.fetch)
      ++ subscriptions.flatMap (fun sub =>
          process_subscription mid_to_video notifier resolve_group
            resolve_user sub)

/-- Whether an effect is the batch fetch of mid `m`. -/
def is_fetch_of (m : Int) (e : Effect) : Bool :=
  match e with
  | .fetch m' => m' = m
  | _ => false

/-- Whether an effect is a baseline `update_last_video` call. -/
def is_update_effect (e : Effect) : Bool :=
  match e with
  | .update_last_video _ _ _ _ _ => true
  | _ => false

/-- Whether an effect is a notifier `send` call. -/
def is_send_effect (e : Effect) : Bool :=
  match e with
  | .send _ => true
  | _ => false

/-! ## Shared lemmas -/
theorem dict_get_map_overwrite {κ α : Type} [DecidableEq κ]
    (l : List (κ × α)) (k k' : κ) (v : α) (h : k ≠ k') :
    dict_get k (l.map (fun kv => if kv.1 = k' then (k', v) else kv)) =
      dict_get k l := by
  induction l with
  | nil => simp [dict_get]
  | cons hd tl ih =>
      by_cases hhd : hd.1 = k'
      · have hk : hd.1 ≠ k := by rw [hhd]; exact Ne.symm h
        simp [dict_get, hhd, hk, Ne.symm h, ih]
      · simp [dict_get, hhd, ih]

theorem dict_get_append_single_ne {κ α : Type} [DecidableEq κ]
    (l : List (κ × α)) (k k' : κ) (v : α) (h : k ≠ k') :
    dict_get k (l ++ [(k', v)]) = dict_get k l := by
  induction l with
  | nil => simp [dict_get, Ne.symm h]
  | cons hd tl ih =>
      by_cases hhd : hd.1 = k
      · simp [dict_get, hhd]
      · simp [dict_get, hhd, ih]

theorem dict_get_map_overwrite_mem {κ α : Type} [DecidableEq κ]
    (l : List (κ × α)) (k : κ) (v : α)
    (h : l.any (fun kv => kv.1 = k)) :
    dict_get k (l.map (fun kv => if kv.1 = k then (k, v) else kv)) = some v := by
  induction l with
  | nil => simp at h
  | cons hd tl ih =>
      by_cases hhd : hd.1 = k
      · simp [dict_get, hhd]
      · have htl : tl.any (fun kv => kv.1 = k) := by
          simpa [List.any_cons, hhd] using h
        simp [dict_get, hhd, ih htl]

theorem dict_get_append_single_self {κ α : Type} [DecidableEq κ]
    (l : List (κ × α)) (k : κ) (v : α)
    (h : ¬ l.any (fun kv => kv.1 = k)) :
    dict_get k (l ++ [(k, v)]) = some v := by
  induction l with
  | nil => simp [dict_get]
  | cons hd tl ih =>
      have hhd : hd.1 ≠ k := by
        intro he
        exact h (by simp [List.any_cons, he])
      have htl : ¬ tl.any (fun kv => kv.1 = k) := by
        intro he
        exact h (by simp [List.any_cons, he])
      simp [dict_get, hhd, ih htl]

theorem dict_get_dict_set_self {κ α : Type} [DecidableEq κ]
    (l : List (κ × α)) (k : κ) (v : α) :
    dict_get k (dict_set l k v) = some v := by
  by_cases hany : l.any (fun kv => kv.1 = k)
  · simpa [dict_set, hany] using dict_get_map_overwrite_mem l k v hany
  · simpa [dict_set, hany] using dict_get_append_single_self l k v hany

theorem dict_get_dict_set_ne {κ α : Type} [DecidableEq κ]
    (l : List (κ × α)) (k k' : κ) (v : α) (h : k ≠ k') :
    dict_get k (dict_set l k' v) = dict_get k l := by
  by_cases hany : l.any (fun kv => kv.1 = k')
  · simpa [dict_set, hany] using dict_get_map_overwrite l k k' v h
  · simpa [dict_set, hany] using dict_get_append_single_ne l k k' v h

theorem fetch_latest_video_false_eq_noretry (resp : Nat → ApiResp) (k : Nat) :
    fetch_latest_video false resp k = fetch_latest_video_noretry resp k := by
  rcases h : resp k with _ | _ | _ | ⟨code, message, data⟩ <;>
    simp [fetch_latest_video, fetch_latest_video_noretry, h]

theorem fetch_latest_video_noretry_counts (resp : Nat → ApiResp) (k : Nat) :
    (fetch_latest_video_noretry resp k).2.1 = 0
    ∧ (fetch_latest_video_noretry resp k).2.2 = 1 := by
  rcases h : resp k with _ | _ | _ | ⟨code, message, data⟩ <;>
    simp [fetch_latest_video_noretry, h]
  by_cases h412 : code = -412
  · simp [h412]
  · by_cases hc : code = 0 <;> simp [h412, hc]

theorem fetch_latest_video_noretry_of_fails (resp : Nat → ApiResp) (k : Nat)
    (h : resp_fails (resp k) = true) :
    fetch_latest_video_noretry resp k = (none, 0, 1) := by
  rcases hk : resp k with _ | _ | _ | ⟨code, message, data⟩ <;>
    simp [fetch_latest_video_noretry, hk]
  rw [hk] at h
  by_cases h412 : code = -412
  · simp [h412]
  · by_cases hc : code = 0
    · have hnone : parse_latest_video data = none := by
        simp [resp_fails, hc] at h
        simpa using h
      simp [h412, hc, hnone]
    · simp [h412, hc]

theorem md5_bytes_length (msg : List Nat) : (md5_bytes msg).length = 16 := by
  simp [md5_bytes, word_le_bytes]

theorem flatten_map_byte_hex_length (l : List Nat) :
    ((l.map byte_hex).flatten).length = 2 * l.length := by
  induction l with
  | nil => simp
  | cons b t ih =>
      simp [byte_hex, ih]
      ring

theorem md5_hex_length (msg : List Nat) : (md5_hex msg).length = 32 := by
  show ((md5_bytes msg).map byte_hex).flatten.length = 32
  rw [flatten_map_byte_hex_length, md5_bytes_length]

theorem hex_digit_lower_mem_fin :
    ∀ n : Fin 16, hex_digit_lower n.val ∈ hex_lower_chars := by decide

theorem byte_hex_mem (b : Nat) : ∀ c ∈ byte_hex b, c ∈ hex_lower_chars := by
  intro c hc
  have h1 : b / 16 % 16 < 16 := Nat.mod_lt _ (by decide)
  have h2 : b % 16 < 16 := Nat.mod_lt _ (by decide)
  simp [byte_hex] at hc
  rcases hc with h | h
  · simpa [h] using hex_digit_lower_mem_fin ⟨b / 16 % 16, h1⟩
  · simpa [h] using hex_digit_lower_mem_fin ⟨b % 16, h2⟩

theorem md5_hex_chars (msg : List Nat) :
    ∀ c ∈ (md5_hex msg).data, c ∈ hex_lower_chars := by
  intro c hc
  have hc' : c ∈ ((md5_bytes msg).map byte_hex).flatten := hc
  rcases List.mem_flatten.mp hc' with ⟨sub, hsub, hcs⟩
  rcases List.mem_map.mp hsub with ⟨b, _, rfl⟩
  exact byte_hex_mem b c hcs

set_option maxRecDepth 8000 in
theorem md5_hex_empty_golden : md5_hex [] = "d41d8cd98f00b204e9800998ecf8427e" := by
  decide

theorem countP_flatMap_zero {α β : Type} (p : β → Bool) (g : α → List β)
    (l : List α) (h : ∀ a, (g a).countP p = 0) :
    (l.flatMap g).countP p = 0 := by
  induction l with
  | nil => simp
  | cons a t ih => simp [List.countP_append, h, ih]

theorem countP_eq_ite_of_nodup {α : Type} [DecidableEq α] (m : α)
    (l : List α) (hnd : l.Nodup) :
    l.countP (fun x => decide (x = m)) = if m ∈ l then 1 else 0 := by
  induction l with
  | nil => simp
  | cons a t ih =>
      rcases List.nodup_cons.mp hnd with ⟨ha, ht⟩
      by_cases ham : a = m
      · subst ham
        have hz : t.countP (fun x => decide (x = a)) = 0 := by
          rw [List.countP_eq_zero]
          intro x hx
          simp only [decide_eq_true_eq]
          intro hxa
          exact ha (hxa ▸ hx)
        simp [List.countP_cons, hz]
      · have hma : ¬ m = a := fun he => ham he.symm
        rw [List.countP_cons]
        simp [ham, ih ht, List.mem_cons, hma]

theorem fetch_batch_foldl_lookup (f : Int → FetchOutcome) (l : List Int)
    (m : Int) (acc : List (Int × VideoInfo)) :
    dict_get m (l.foldl (fetch_batch_step f) acc) =
      if m ∈ l ∧ (fetch_value (f m)).isSome = true then fetch_value (f m)
      else dict_get m acc := by
  induction l generalizing acc with
  | nil => simp
  | cons a t ih =>
      rw [List.foldl_cons, ih]
      by_cases ham : a = m
      · subst ham
        rcases hf : f a with _ | v
        · simp [fetch_batch_step, hf, fetch_value]
        · rcases v with _ | video
          · simp [fetch_batch_step, hf, fetch_value]
          · by_cases hmt : a ∈ t
            · simp [fetch_batch_step, hf, fetch_value, hmt, List.mem_cons]
            · simp [fetch_batch_step, hf, fetch_value, hmt, List.mem_cons,
                dict_get_dict_set_self]
      · have hma : ¬ m = a := fun he => ham he.symm
        rcases hf : f a with _ | v
        · simp [fetch_batch_step, hf, List.mem_cons, hma]
        · rcases v with _ | video
          · simp [fetch_batch_step, hf, List.mem_cons, hma]
          · simp [fetch_batch_step, hf, List.mem_cons, hma,
              dict_get_dict_set_ne acc m a video hma]

theorem push_and_update_no_fetch (m : Int) (notifier : Nat → SendOutcome)
    (resolve_group resolve_user : String → Option String)
    (video : VideoInfo) (sub : BiliSubscription) :
    (push_and_update notifier resolve_group resolve_user video sub).1.countP
      (is_fetch_of m) = 0 := by
  rcases h0 : notifier 0 with _ | success
  · simp [push_and_update, h0, is_fetch_of]
  · cases success
    · rcases hns : (if pyTruthyS sub.group_id then
          resolve_group (sub.group_id.getD "")
          else if pyTruthyS sub.user_id then
            resolve_user (sub.user_id.getD "")
          else none) with _ | ns
      · simp [push_and_update, h0, hns, is_fetch_of, update_effect]
      · by_cases hne : ns = sub.stream_id
        · simp [push_and_update, h0, hns, hne, is_fetch_of, update_effect]
        · rcases h1 : notifier 1 with _ | s2
          · simp [push_and_update, h0, hns, hne, h1, is_fetch_of]
          · cases s2 <;>
              simp [push_and_update, h0, hns, hne, h1, is_fetch_of,
                update_effect, List.countP_append]
    · simp [push_and_update, h0, is_fetch_of, update_effect]

theorem process_subscription_no_fetch (m : Int)
    (mid_to_video : List (Int × VideoInfo))
    (notifier : Int → Nat → SendOutcome)
    (resolve_group resolve_user : String → Option String)
    (sub : BiliSubscription) :
    (process_subscription mid_to_video notifier resolve_group resolve_user
      sub).countP (is_fetch_of m) = 0 := by
  rcases hv : dict_get sub.mid mid_to_video with _ | latest_video
  · simp [process_subscription, hv]
  · by_cases hfalsy : (!pyTruthyS sub.last_bvid
        || !pyTruthyI sub.last_created_ts) = true
    · simp [process_subscription, hv, hfalsy, is_fetch_of, update_effect]
    · by_cases hpush : should_push latest_video sub = true
      · simpa [process_subscription, hv, hfalsy, hpush] using
          push_and_update_no_fetch m (notifier sub.id) resolve_group
            resolve_user latest_video sub
      · simp [process_subscription, hv, hfalsy, hpush]

/-! ## Claims -/

/-- C1 (counterexample): the claim quantifies over every subscription whose
baseline fields are both non-null. With the non-null baseline
(`last_bvid = some ""`, `last_created_ts = some 1000`) and a fetched item
whose id differs from the stored id and whose timestamp is strictly greater,
the claim requires a NewItem classification, but `_should_push` returns
`false` (Python truthiness routes a falsy baseline to the healing path). -/
theorem C1_counterexample :
    should_push ⟨"BV2", "t2", "a2", 1001⟩
        ⟨1, "s1", "qq", none, none, 42, none, true, some "", none, some 1000⟩
      = false
    ∧ "BV2" ≠ "" ∧ (1001 : Int) > 1000 := by
  decide

/-- C1 (amended): for every subscription whose stored baseline id is non-null
and non-empty and whose stored baseline timestamp is non-null and non-zero,
`_should_push` answers `true` exactly when the fetched id differs from the
stored id AND the fetched timestamp is strictly greater than the stored one;
in every other case it answers `false`. -/
theorem C1_should_push_double_condition (v : VideoInfo)
    (sub : BiliSubscription) (b : String) (t : Int)
    (hb : sub.last_bvid = some b) (ht : sub.last_created_ts = some t)
    (hbne : b ≠ "") (htne : t ≠ 0) :
    should_push v sub = true ↔ (v.bvid ≠ b ∧ v.created_ts > t) := by
  simp [should_push, hb, ht, pyTruthyS, pyTruthyI, hbne, htne]

/-- C1 witness: the amended detector applied at the spec's own test vector
`last_item_id="BV1"`, `last_published_at=1000`,
`fetched(id="BV2", published=1001)` yields NewItem. -/
theorem C1_should_push_double_condition_witness :
    should_push ⟨"BV2", "t2", "a2", 1001⟩
      ⟨1, "s1", "qq", none, none, 42, none, true, some "BV1", none,
        some 1000⟩ = true := by
  exact (C1_should_push_double_condition ⟨"BV2", "t2", "a2", 1001⟩
    ⟨1, "s1", "qq", none, none, 42, none, true, some "BV1", none, some 1000⟩
    "BV1" 1000 rfl rfl (by decide) (by decide)).mpr (by decide)

/-- C2: for every notifier behaviour that returns (rather than raises) — in
particular one that always reports failure — and every resolver behaviour,
`_push_and_update` records exactly one `update_last_video` call and does not
re-raise: the baseline commit is neither skipped nor duplicated. -/
theorem C2_baseline_commit_exactly_once (notifier : Nat → SendOutcome)
    (resolve_group resolve_user : String → Option String)
    (video : VideoInfo) (sub : BiliSubscription)
    (h : ∀ n, notifier n ≠ SendOutcome.raise) :
    (push_and_update notifier resolve_group resolve_user video sub).1.countP
      is_update_effect = 1
    ∧ (push_and_update notifier resolve_group resolve_user video sub).2
      = false := by
  rcases h0 : notifier 0 with _ | success
  · exact absurd h0 (h 0)
  · cases success
    · rcases hns : (if pyTruthyS sub.group_id then
          resolve_group (sub.group_id.getD "")
          else if pyTruthyS sub.user_id then
            resolve_user (sub.user_id.getD "")
          else none) with _ | ns
      · simp [push_and_update, h0, hns, is_update_effect, update_effect]
      · by_cases hne : ns = sub.stream_id
        · simp [push_and_update, h0, hns, hne, is_update_effect,
            update_effect]
        · rcases h1 : notifier 1 with _ | s2
          · exact absurd h1 (h 1)
          · cases s2 <;>
              simp [push_and_update, h0, hns, hne, h1, is_update_effect,
                update_effect, List.countP_append]
    · simp [push_and_update, h0, is_update_effect, update_effect]

/-- C2 witness: a notifier that always returns failure and resolvers that
never produce a destination still commit the baseline exactly once. -/
theorem C2_baseline_commit_exactly_once_witness :
    (push_and_update (fun _ => SendOutcome.ok false) (fun _ => none)
      (fun _ => none) ⟨"BV2", "t2", "a2", 1001⟩
      ⟨1, "s1", "qq", none, none, 42, none, true, some "BV1", none,
        some 1000⟩).1.countP is_update_effect = 1 := by
  exact (C2_baseline_commit_exactly_once (fun _ => SendOutcome.ok false)
    (fun _ => none) (fun _ => none) ⟨"BV2", "t2", "a2", 1001⟩
    ⟨1, "s1", "qq", none, none, 42, none, true, some "BV1", none, some 1000⟩
    (fun n => by simp)).1

/-- C3: the reordering table is a 64-entry permutation of `0..63`, and for
every key pair whose concatenation holds at least 64 characters,
`get_mixin_key` returns exactly 32 characters, character `i` of the output
being character `MIXIN_KEY_ENC_TAB[i]` of the concatenation. -/
theorem C3_get_mixin_key_spec (img_key sub_key : String)
    (h : 64 ≤ (img_key ++ sub_key).data.length) :
    (MIXIN_KEY_ENC_TAB.length = 64 ∧ MIXIN_KEY_ENC_TAB.Nodup ∧
      ∀ x ∈ MIXIN_KEY_ENC_TAB, x < 64)
    ∧ (get_mixin_key img_key sub_key).data.length = 32
    ∧ (get_mixin_key img_key sub_key).data =
        (List.range 32).map (fun i =>
          (img_key ++ sub_key).data.getD (MIXIN_KEY_ENC_TAB.getD i 0) ' ') := by
  refine ⟨by decide, rfl, rfl⟩

/-- C3 witness: the derivation evaluated at a concrete 32+32-character key
pair (the pair documented for this endpoint) has a 64-character concatenation
and a 32-character output. -/
theorem C3_get_mixin_key_spec_witness :
    64 ≤ ("7cd084941338484aae1ad9425b84077c"
      ++ "4932caff0ff746eab6f01bf08b70ac45").data.length
    ∧ (get_mixin_key "7cd084941338484aae1ad9425b84077c"
        "4932caff0ff746eab6f01bf08b70ac45").data.length = 32 := by
  exact ⟨by decide, (C3_get_mixin_key_spec "7cd084941338484aae1ad9425b84077c"
    "4932caff0ff746eab6f01bf08b70ac45" (by decide)).2.1⟩

/-- C4: at a fixed clock value and a fixed cached mixin key, `sign_params`
is a pure function (two runs on the same params agree); it stores `wts = now`
and stores as `w_rid` exactly the MD5 hex digest of the URL-encoded,
key-sorted query string (with `wts` included) concatenated with the mixin
key; that digest is 32 characters long and uses only lowercase hex
characters. -/
theorem C4_sign_params_deterministic (now : Int) (mixin_key : String)
    (params : List (String × PVal)) :
    sign_params now mixin_key params = sign_params now mixin_key params
    ∧ dict_get "wts" (sign_params now mixin_key params) = some (PVal.i now)
    ∧ dict_get "w_rid" (sign_params now mixin_key params) =
        some (PVal.s (md5_hex (str_bytes (urlencode (sorted_by_key
          (dict_set params "wts" (PVal.i now))) ++ mixin_key))))
    ∧ (md5_hex (str_bytes (urlencode (sorted_by_key
        (dict_set params "wts" (PVal.i now))) ++ mixin_key))).length = 32
    ∧ ∀ c ∈ (md5_hex (str_bytes (urlencode (sorted_by_key
        (dict_set params "wts" (PVal.i now))) ++ mixin_key))).data,
        c ∈ hex_lower_chars := by
  refine ⟨rfl, ?_, ?_, md5_hex_length _, md5_hex_chars _⟩
  · show dict_get "wts" (dict_set (dict_set params "wts" (PVal.i now))
      "w_rid" _) = _
    rw [dict_get_dict_set_ne _ _ _ _ (by decide)]
    exact dict_get_dict_set_self _ _ _
  · exact dict_get_dict_set_self _ _ _

/-- C5: every key-fetch attempt either leaves the cached pair and the fetch
timestamp exactly as they were (every failure shape), or succeeds and
replaces all three fields together with the two keys extracted from the two
URLs — the cache never holds a partially-updated pair. -/
theorem C5_fetch_wbi_keys_atomic (st : WbiState) (now : Int) (resp : NavResp) :
    ((fetch_wbi_keys st now resp).2 = false
      ∧ (fetch_wbi_keys st now resp).1 = st)
    ∨ ((fetch_wbi_keys st now resp).2 = true
      ∧ ∃ img_url sub_url,
          resp = NavResp.ok (some img_url) (some sub_url)
          ∧ img_url ≠ "" ∧ sub_url ≠ ""
          ∧ (fetch_wbi_keys st now resp).1 =
              { img_key := some (extract_url_key img_url)
                sub_key := some (extract_url_key sub_url)
                keys_fetched_at := now }) := by
  rcases resp with _ | ⟨img_url, sub_url⟩
  · exact Or.inl ⟨rfl, rfl⟩
  · cases h1 : pyTruthyS img_url with
    | false =>
        exact Or.inl ⟨by simp [fetch_wbi_keys, h1],
          by simp [fetch_wbi_keys, h1]⟩
    | true =>
        cases h2 : pyTruthyS sub_url with
        | false =>
            exact Or.inl ⟨by simp [fetch_wbi_keys, h1, h2],
              by simp [fetch_wbi_keys, h1, h2]⟩
        | true =>
            rcases img_url with _ | i
            · simp [pyTruthyS] at h1
            rcases sub_url with _ | s
            · simp [pyTruthyS] at h2
            have hi : i ≠ "" := by simpa [pyTruthyS] using h1
            have hs : s ≠ "" := by simpa [pyTruthyS] using h2
            right
            refine ⟨by simp [fetch_wbi_keys, h1, h2], i, s, rfl, hi, hs,
              by simp [fetch_wbi_keys, h1, h2]⟩

/-- C6 (counterexample): the claim quantifies over every non-success response
whose message carries the signature indication (the code's own test:
case-insensitive `"sign" in message`). A `-412` rate-limit response whose
message contains "sign" is such a response, yet the client returns a miss
with zero `refresh_keys` calls and no retry — not the exactly-one refresh
the claim requires. -/
theorem C6_counterexample :
    fetch_latest_video true
        (fun _ => ApiResp.ok (-412) "sign check blocked" none) 0
      = (none, 0, 1)
    ∧ str_contains_sub (str_lower "sign check blocked") "sign" = true
    ∧ ((-412 : Int) ≠ 0) := by
  refine ⟨rfl, by decide, by decide⟩

/-- C6 (amended): every top-level `fetch_latest_video` call performs at most
one `refresh_keys` call and at most two requests, whatever the responses;
and for every first response that is non-success, is not the rate-limit code
`-412`, and carries "sign" in its lowercased message, followed by any
failing second response, the call performs exactly one refresh and exactly
two requests and returns a miss. -/
theorem C6_sign_retry_capped :
    (∀ resp : Nat → ApiResp,
      (fetch_latest_video true resp 0).2.1 ≤ 1
      ∧ (fetch_latest_video true resp 0).2.2 ≤ 2)
    ∧ (∀ (resp : Nat → ApiResp) (code : Int) (message : String)
        (data : Option SpaceData),
        resp 0 = ApiResp.ok code message data → ¬ code = 0 →
        ¬ code = -412 →
        str_contains_sub (str_lower message) "sign" = true →
        resp_fails (resp 1) = true →
        fetch_latest_video true resp 0 = (none, 1, 2)) := by
  constructor
  · intro resp
    rcases h : resp 0 with _ | _ | _ | ⟨code, message, data⟩ <;>
      simp [fetch_latest_video, h]
    by_cases h412 : code = -412
    · simp [h412]
    · by_cases hc : code = 0
      · simp [h412, hc]
      · by_cases hsign : str_contains_sub (str_lower message) "sign" = true
        · have hcounts := fetch_latest_video_noretry_counts resp 1
          simp [h412, hc, hsign, hcounts.1, hcounts.2]
        · simp [h412, hc, hsign]
  · intro resp code message data h0 hc h412 hsign hfail
    have hnr := fetch_latest_video_noretry_of_fails resp 1 hfail
    simp [fetch_latest_video, h0, hc, h412, hsign, hnr]

/-- C6 witness: a first response rejected with a sign-related message and a
timed-out retry give exactly one refresh, exactly two requests, and a miss. -/
theorem C6_sign_retry_capped_witness :
    fetch_latest_video true
      (fun k => if k = 0 then ApiResp.ok (-352) "Wbi Sign Invalid" none
        else ApiResp.timeout) 0 = (none, 1, 2) := by
  exact C6_sign_retry_capped.2
    (fun k => if k = 0 then ApiResp.ok (-352) "Wbi Sign Invalid" none
      else ApiResp.timeout)
    (-352) "Wbi Sign Invalid" none rfl (by decide) (by decide) (by decide)
    rfl

/-- C7: for every target list and every per-target outcome assignment, the
batch result maps a target to a video exactly when the target was in the
list and its own fetch returned that video: a raising target contributes
nothing and removes nothing from the others. -/
theorem C7_fetch_batch_isolation (f : Int → FetchOutcome)
    (mid_list : List Int) (m : Int) :
    dict_get m (fetch_latest_videos_batch f mid_list) =
      if m ∈ mid_list then fetch_value (f m) else none := by
  have h := fetch_batch_foldl_lookup f mid_list m []
  unfold fetch_latest_videos_batch
  rw [h]
  by_cases hm : m ∈ mid_list
  · by_cases hs : (fetch_value (f m)).isSome = true
    · simp [hm, hs]
    · have hnone : fetch_value (f m) = none :=
        Option.not_isSome_iff_eq_none.mp (by simpa using hs)
      simp [hm, hs, hnone, dict_get]
  · simp [hm, dict_get]

/-- C8: in every polling cycle, a mid is fetched exactly once when some
enabled subscription follows it and never otherwise, however many enabled
subscriptions share that mid. -/
theorem C8_fetch_dedup (rows : List BiliSubscription)
    (f : Int → FetchOutcome) (notifier : Int → Nat → SendOutcome)
    (resolve_group resolve_user : String → Option String) (m : Int) :
    (poll_once rows f notifier resolve_group resolve_user).countP
        (is_fetch_of m)
      = if m ∈ (get_all_enabled_subscriptions rows).map (fun s => s.mid)
        then 1 else 0 := by
  by_cases hemp : (get_all_enabled_subscriptions rows).isEmpty = true
  · have hnil : get_all_enabled_subscriptions rows = [] := by
      simpa [List.isEmpty_iff] using hemp
    simp [poll_once, hnil]
  · simp only [poll_once]
    rw [if_neg hemp]
    rw [List.countP_append]
    have hproc : ((get_all_enabled_subscriptions rows).flatMap (fun sub =>
        process_subscription
          (fetch_latest_videos_batch f
            (unique_mids (get_all_enabled_subscriptions rows)))
          notifier resolve_group resolve_user sub)).countP
        (is_fetch_of m) = 0 :=
      countP_flatMap_zero _ _ _ (fun sub =>
        process_subscription_no_fetch m _ notifier resolve_group
          resolve_user sub)
    rw [hproc, Nat.add_zero, List.countP_map]
    have hcomp : (is_fetch_of m ∘ Effect.fetch) =
        fun x => decide (x = m) := by
      funext x
      simp [is_fetch_of, Function.comp]
    rw [hcomp]
    have hnd : (unique_mids (get_all_enabled_subscriptions rows)).Nodup := by
      unfold unique_mids
      exact List.nodup_dedup _
    rw [countP_eq_ite_of_nodup m _ hnd]
    simp [unique_mids, List.mem_dedup]

/-- C9 (counterexample): the claim requires a fetch-miss when any of the four
consumed fields (id, title, author, created) is missing. A first result
element with id, title and created present but the author missing is parsed
into an Item whose author is the placeholder name — not a miss. -/
theorem C9_counterexample :
    parse_latest_video (some ⟨[⟨some "BV1x", some "title", none,
        some 1700000000⟩]⟩)
      = some ⟨"BV1x", "title", "未知UP主", 1700000000⟩
    ∧ parse_latest_video (some ⟨[⟨some "BV1x", some "title", none,
        some 1700000000⟩]⟩) ≠ none := by
  exact ⟨by decide, by decide⟩

/-- C9 (amended): a falsy response body or an empty result list is a miss;
a first element whose id, title or created timestamp is missing (or falsy)
is a miss; when those three are present and truthy, an Item is always
produced in full, with a missing or empty author replaced by the placeholder
name — never a partially-populated Item. -/
theorem C9_required_fields (r : RawVideo) (rest : List RawVideo) :
    parse_latest_video none = none
    ∧ parse_latest_video (some ⟨[]⟩) = none
    ∧ ((pyTruthyS r.bvid = false ∨ pyTruthyS r.title = false
        ∨ pyTruthyI r.created = false) →
        parse_latest_video (some ⟨r :: rest⟩) = none)
    ∧ (pyTruthyS r.bvid = true → pyTruthyS r.title = true →
        pyTruthyI r.created = true →
        parse_latest_video (some ⟨r :: rest⟩) =
          some ⟨r.bvid.getD "", r.title.getD "",
            pyOrS r.author "未知UP主", r.created.getD 0⟩) := by
  refine ⟨rfl, rfl, ?_, ?_⟩
  · intro hfalsy
    rcases hfalsy with h | h | h <;> simp [parse_latest_video, h]
  · intro h1 h2 h3
    simp [parse_latest_video, h1, h2, h3]

/-- C9 witness: a first element with a missing id and everything else
present is a miss. -/
theorem C9_required_fields_witness :
    parse_latest_video (some ⟨[⟨none, some "title", some "auth",
      some 5⟩]⟩) = none := by
  exact (C9_required_fields ⟨none, some "title", some "auth", some 5⟩
    []).2.2.1 (Or.inl (by decide))

/-- C10: a subscription whose stored baseline is falsy without being null —
an empty stored id or a zero stored timestamp — is handled by the cycle
exactly like a null baseline: when its target's video was fetched, the
cycle's per-subscription step emits exactly the silent baseline update (no
send), and `_should_push` answers `false`. -/
theorem C10_falsy_baseline_healed (mid_to_video : List (Int × VideoInfo))
    (notifier : Int → Nat → SendOutcome)
    (resolve_group resolve_user : String → Option String)
    (sub : BiliSubscription) (v : VideoInfo)
    (hv : dict_get sub.mid mid_to_video = some v)
    (hfalsy : sub.last_bvid = some "" ∨ sub.last_created_ts = some 0) :
    process_subscription mid_to_video notifier resolve_group resolve_user sub
      = [update_effect v sub]
    ∧ (process_subscription mid_to_video notifier resolve_group resolve_user
        sub).countP is_send_effect = 0
    ∧ should_push v sub = false := by
  have hguard : (!pyTruthyS sub.last_bvid
      || !pyTruthyI sub.last_created_ts) = true := by
    rcases hfalsy with h | h <;> simp [h, pyTruthyS, pyTruthyI]
  refine ⟨?_, ?_, ?_⟩
  · simp [process_subscription, hv, hguard]
  · simp [process_subscription, hv, hguard, is_send_effect, update_effect]
  · simp [should_push, hguard]

/-- C10 witness: a subscription with stored id `""` and stored timestamp `5`
whose target has a fetched video is healed with one silent baseline update
and no push. -/
theorem C10_falsy_baseline_healed_witness :
    process_subscription [((42 : Int), ⟨"BV9", "t", "a", 100⟩)]
      (fun _ _ => SendOutcome.ok true) (fun _ => none) (fun _ => none)
      ⟨1, "s1", "qq", none, none, 42, none, true, some "", none, some 5⟩
      = [update_effect ⟨"BV9", "t", "a", 100⟩
          ⟨1, "s1", "qq", none, none, 42, none, true, some "", none,
            some 5⟩] := by
  exact (C10_falsy_baseline_healed _ _ _ _ _ ⟨"BV9", "t", "a", 100⟩
    (by decide) (Or.inl rfl)).1
